import Mathlib

/-!
Verification of the block-ordering checker and contract-reading helpers of
`reading_the_chain.py`.

The Python code reads a block from a chain collaborator, computes a priority
fee for each transaction it can resolve, and checks that the fee sequence is
non-increasing.  Exceptions raised by the collaborator are modelled with
`Option`: `none` means the call raised.  Python integers are unbounded, so
fees are `Int`.
-/

namespace ReadingTheChain

/-- A transaction record as returned by the chain collaborator.
`type` mirrors `tx.get('type', 0)`; the numeric fee fields mirror
`tx.get('gasPrice', 0) or 0` etc., with `none` standing for an absent
(or null) field. -/
structure Tx where
  type : Option Nat
  gasPrice : Option Int
  maxPriorityFeePerGas : Option Int
  maxFeePerGas : Option Int
deriving DecidableEq, Repr

/-- A block record: `baseFeePerGas` mirrors `block.get('baseFeePerGas', 0)`
and `transactions` mirrors `block.get('transactions', [])`, a list of
transaction hashes (modelled as `Nat` identifiers). -/
structure Block where
  baseFeePerGas : Option Int
  transactions : Option (List Nat)
deriving DecidableEq, Repr

/-- The per-transaction priority-fee computation inside `is_ordered_block`:
if `tx_type == 2` then `min(maxPriorityFeePerGas, maxFeePerGas - base)`
else `gasPrice - base`, with missing fields defaulted to 0. -/
def priorityFee (base_fee_per_gas : Int) (tx : Tx) : Int :=
  if tx.type.getD 0 = 2 then
    min (tx.maxPriorityFeePerGas.getD 0) (tx.maxFeePerGas.getD 0 - base_fee_per_gas)
  else
    tx.gasPrice.getD 0 - base_fee_per_gas

/-- The transaction loop of `is_ordered_block`: resolve each hash through the
collaborator; on success append its priority fee, on failure (exception,
modelled by `none`) skip the transaction and continue. -/
def computeFees (base_fee_per_gas : Int) (getTransaction : Nat → Option Tx) :
    List Nat → List Int
  | [] => []
  | tx_hash :: rest =>
    match getTransaction tx_hash with
    | some tx =>
        priorityFee base_fee_per_gas tx :: computeFees base_fee_per_gas getTransaction rest
    | none => computeFees base_fee_per_gas getTransaction rest

/-- The final loop of `is_ordered_block`:
`for i in range(len(fees) - 1): if fees[i] < fees[i+1]: return False`,
then `return True`. -/
def descending : List Int → Bool
  | [] => true
  | [_] => true
  | a :: b :: rest => if a < b then false else descending (b :: rest)

/-- `is_ordered_block(w3, block_num)`.  The block fetch may raise
(`blockFetch = none`); on success the base fee and transaction list get their
defaults, an empty list returns `True`, and otherwise the fee sequence is
checked for descending order. -/
def is_ordered_block (blockFetch : Option Block) (getTransaction : Nat → Option Tx) :
    Bool :=
  match blockFetch with
  | none => false
  | some block =>
    let base_fee_per_gas := block.baseFeePerGas.getD 0
    let transactions := block.transactions.getD []
    if transactions.isEmpty then true
    else descending (computeFees base_fee_per_gas getTransaction transactions)

/-- The three contract view calls made by `get_contract_values`, each of which
may raise (`none`). -/
structure ContractCalls where
  merkleRoot : Option Nat
  hasRole : Option Bool
  getPrimeByOwner : Option Nat
deriving DecidableEq, Repr

/-- `get_contract_values()`: if the connection setup raises, or any of the
three sequential contract calls raises, return `(None, None, None)`;
otherwise return the three decoded values. -/
def get_contract_values (connect : Option ContractCalls) :
    Option Nat × Option Bool × Option Nat :=
  match connect with
  | none => (none, none, none)
  | some contract =>
    match contract.merkleRoot with
    | none => (none, none, none)
    | some onchain_root =>
      match contract.hasRole with
      | none => (none, none, none)
      | some has_role =>
        match contract.getPrimeByOwner with
        | none => (none, none, none)
        | some prime => (some onchain_root, some has_role, some prime)

/-- Errors raised by `connect_with_middleware`. -/
inductive ConnectError where
  | connectionError (msg : String)
  | valueError (msg : String)
deriving DecidableEq, Repr

/-- The `'bsc'` entry of the contract-info JSON: `bsc_info.get('address')`
and `bsc_info.get('abi')`.  `none` is a missing key; the empty string models
a present-but-falsy (empty) value, matching Python truthiness. -/
structure BscInfo where
  address : Option String
  abi : Option String
deriving DecidableEq, Repr

/-- `connect_with_middleware(contract_json)`: fail with `ConnectionError`
when the RPC is unreachable; otherwise read the `'bsc'` entry (defaulting to
`{}` when the key is absent), and raise `ValueError` when the address or abi
is missing or empty; on success return the contract handle data. -/
def connect_with_middleware (is_connected : Bool) (info : Option BscInfo) :
    Except ConnectError (String × String) :=
  if ¬ is_connected then
    .error (.connectionError "Failed to connect to the BSC Testnet RPC.")
  else
    let bsc_info := info.getD ⟨none, none⟩
    let contract_address := bsc_info.address.getD ""
    let contract_abi := bsc_info.abi.getD ""
    if contract_address = "" ∨ contract_abi = "" then
      .error (.valueError "Could not find 'bsc' address or abi in contract_info.json")
    else
      .ok (contract_address, contract_abi)

/-- The priority-fee policy as the specification words it: if the type equals
FeeMarket (2), `fee = min(maxPriorityFeePerGas, maxFeePerGas - baseFeePerGas)`;
else `fee = gasPrice - baseFeePerGas`; missing numeric fields default to 0
before the arithmetic. -/
def specPriorityFee (baseFeePerGas : Int) (tx : Tx) : Int :=
  if tx.type.getD 0 = 2 then
    min (tx.maxPriorityFeePerGas.getD 0) (tx.maxFeePerGas.getD 0 - baseFeePerGas)
  else
    tx.gasPrice.getD 0 - baseFeePerGas

/-! ### Helper lemmas -/

/-- The comparison loop accepts a fee list exactly when every adjacent pair
is non-increasing. -/
theorem descending_iff_chain : ∀ l : List Int, descending l = true ↔ l.Chain' (· ≥ ·)
  | [] => by simp [descending]
  | [a] => by simp [descending]
  | a :: b :: rest => by
    have ih := descending_iff_chain (b :: rest)
    rw [List.chain'_cons, ← ih]
    by_cases hab : a < b
    · simp only [descending, if_pos hab, Bool.false_eq_true, false_iff, not_and]
      intro hge
      omega
    · have hge : a ≥ b := by omega
      simp [descending, if_neg hab, hge]

/-- When every hash resolves, the fee loop produces exactly the map of the
fee policy over the hashes, in order. -/
theorem computeFees_eq_map (base : Int) (lookup : Nat → Option Tx) :
    ∀ txIds : List Nat, (∀ id ∈ txIds, (lookup id).isSome) →
      computeFees base lookup txIds =
        txIds.map fun id => priorityFee base ((lookup id).getD ⟨none, none, none, none⟩)
  | [], _ => rfl
  | id :: rest, h => by
    have h1 : (lookup id).isSome := h id (List.mem_cons_self id rest)
    obtain ⟨tx, htx⟩ := Option.isSome_iff_exists.mp h1
    have ih := computeFees_eq_map base lookup rest
      (fun i hi => h i (List.mem_cons_of_mem id hi))
    simp [computeFees, htx, ih]

/-- Filtering out the hashes that fail to resolve does not change the fee
sequence the loop produces. -/
theorem computeFees_filter (base : Int) (lookup : Nat → Option Tx) :
    ∀ txIds : List Nat,
      computeFees base lookup (txIds.filter fun id => (lookup id).isSome) =
        computeFees base lookup txIds
  | [] => rfl
  | id :: rest => by
    have ih := computeFees_filter base lookup rest
    cases htx : lookup id with
    | none => simp [List.filter_cons, htx, computeFees, ih]
    | some tx => simp [List.filter_cons, htx, computeFees, ih]

/-- The fee loop equals the map of the fee policy over the resolvable
transactions, kept in their original order. -/
theorem computeFees_eq_filterMap (base : Int) (lookup : Nat → Option Tx) :
    ∀ txIds : List Nat,
      computeFees base lookup txIds = (txIds.filterMap lookup).map (priorityFee base)
  | [] => rfl
  | a :: rest => by
    have ih := computeFees_eq_filterMap base lookup rest
    cases htx : lookup a with
    | none => simp [computeFees, List.filterMap_cons, htx, ih]
    | some tx => simp [computeFees, List.filterMap_cons, htx, ih]

/-! ### Claims -/

/-- C1: for a block whose fetch succeeds and whose transactions all resolve,
`is_ordered_block` returns `true` iff the derived priority-fee sequence, in
block inclusion order, is non-increasing (ties permitted). -/
theorem is_ordered_block_iff_nonincreasing (base : Int) (txIds : List Nat)
    (lookup : Nat → Option Tx) (h : ∀ id ∈ txIds, (lookup id).isSome) :
    is_ordered_block (some ⟨some base, some txIds⟩) lookup = true ↔
      List.Chain' (· ≥ ·)
        (txIds.map fun id => priorityFee base ((lookup id).getD ⟨none, none, none, none⟩)) := by
  cases txIds with
  | nil => simp [is_ordered_block]
  | cons a rest =>
    rw [show is_ordered_block (some ⟨some base, some (a :: rest)⟩) lookup
        = descending (computeFees base lookup (a :: rest)) from rfl]
    rw [descending_iff_chain, computeFees_eq_map base lookup (a :: rest) h]

/-- Concrete lookup used to witness C1: three legacy transactions with gas
prices 50, 50 and 30. -/
def lookupFees : Nat → Option Tx := fun id =>
  if id = 0 then some ⟨some 0, some 50, none, none⟩
  else if id = 1 then some ⟨some 0, some 50, none, none⟩
  else some ⟨some 0, some 30, none, none⟩

/-- Witness for C1 at the block [50, 50, 30]. -/
theorem is_ordered_block_iff_nonincreasing_witness :
    (∀ id ∈ [0, 1, 2], (lookupFees id).isSome) ∧
      (is_ordered_block (some ⟨some 0, some [0, 1, 2]⟩) lookupFees = true ↔
        List.Chain' (· ≥ ·)
          ([0, 1, 2].map fun id => priorityFee 0 ((lookupFees id).getD ⟨none, none, none, none⟩))) :=
  ⟨by decide, is_ordered_block_iff_nonincreasing 0 [0, 1, 2] lookupFees (by decide)⟩

/-- C2: each transaction processed by the loop of `is_ordered_block` is priced
exactly as the specification states: type 2 gets
`min(maxPriorityFeePerGas, maxFeePerGas - baseFeePerGas)`, any other type gets
`gasPrice - baseFeePerGas`, missing numeric fields defaulting to 0. -/
theorem fee_policy_matches_spec (base : Int) (tx : Tx) (lookup : Nat → Option Tx)
    (txIds : List Nat) :
    priorityFee base tx = specPriorityFee base tx ∧
      computeFees base lookup txIds =
        (txIds.filterMap lookup).map (specPriorityFee base) :=
  ⟨rfl, by rw [computeFees_eq_filterMap]; rfl⟩

/-- C3: when the block fetch raises, `is_ordered_block` returns `false`; the
embedding is a total function into `Bool`, so no error propagates. -/
theorem is_ordered_block_fetch_failure (lookup : Nat → Option Tx) :
    is_ordered_block none lookup = false := rfl

/-- C4: an unresolvable transaction is dropped from the fee sequence entirely
(no placeholder 0), and the overall answer is the same as for a block listing
only the resolvable transactions, in their original order. -/
theorem unresolved_tx_dropped (base : Int) (txIds : List Nat) (lookup : Nat → Option Tx) :
    computeFees base lookup txIds = (txIds.filterMap lookup).map (priorityFee base) ∧
      is_ordered_block (some ⟨some base, some txIds⟩) lookup =
        is_ordered_block
          (some ⟨some base, some (txIds.filter fun id => (lookup id).isSome)⟩) lookup := by
  refine ⟨computeFees_eq_filterMap base lookup txIds, ?_⟩
  cases txIds with
  | nil => rfl
  | cons a rest =>
    simp only [is_ordered_block, Option.getD_some, List.isEmpty_cons, Bool.false_eq_true,
      if_false, computeFees_filter]
    by_cases he : ((a :: rest).filter fun id => (lookup id).isSome).isEmpty
    · rw [if_pos he]
      have hnil : computeFees base lookup (a :: rest) = [] := by
        rw [← computeFees_filter base lookup (a :: rest), List.isEmpty_iff.mp he]
        rfl
      rw [hnil]
      rfl
    · rw [if_neg he]

/-- C5: a successfully fetched block with zero transactions (an empty list, or
the transactions field absent) is vacuously ordered. -/
theorem empty_block_ordered (baseFee : Option Int) (lookup : Nat → Option Tx) :
    is_ordered_block (some ⟨baseFee, some []⟩) lookup = true ∧
      is_ordered_block (some ⟨baseFee, none⟩) lookup = true :=
  ⟨rfl, rfl⟩

/-- C6: the priority fee is a signed quantity: a legacy transaction with
baseFeePerGas 100 and gasPrice 90 has fee -10; a type-2 transaction with
baseFeePerGas 100, maxPriorityFeePerGas 5, maxFeePerGas 120 has fee
min(5, 20) = 5; and negative fees participate in the descending comparison. -/
theorem fee_values_concrete :
    priorityFee 100 ⟨some 0, some 90, none, none⟩ = -10 ∧
      priorityFee 100 ⟨some 2, none, some 5, some 120⟩ = min 5 20 ∧
      min (5 : Int) 20 = 5 ∧
      descending [(-5 : Int), (-10 : Int)] = true ∧
      descending [(-10 : Int), (-5 : Int)] = false := by
  decide

/-- C7: a successfully fetched block whose fee sequence has exactly one entry
is reported ordered, there being no adjacent pair to violate. -/
theorem single_fee_ordered (base : Int) (txIds : List Nat) (lookup : Nat → Option Tx)
    (h : (computeFees base lookup txIds).length = 1) :
    is_ordered_block (some ⟨some base, some txIds⟩) lookup = true := by
  cases txIds with
  | nil => rfl
  | cons a rest =>
    obtain ⟨x, hx⟩ := List.length_eq_one.mp h
    rw [show is_ordered_block (some ⟨some base, some (a :: rest)⟩) lookup
        = descending (computeFees base lookup (a :: rest)) from rfl]
    rw [hx]
    rfl

/-- Lookup used to witness C7: every hash resolves to an all-default
transaction. -/
def lookupSingle : Nat → Option Tx := fun _ => some ⟨none, none, none, none⟩

/-- Witness for C7 at a one-transaction block. -/
theorem single_fee_ordered_witness :
    (computeFees 0 lookupSingle [7]).length = 1 ∧
      is_ordered_block (some ⟨some 0, some [7]⟩) lookupSingle = true :=
  ⟨by decide, single_fee_ordered 0 [7] lookupSingle (by decide)⟩

/-- C8: `get_contract_values` returns the sentinel `(None, None, None)` when
the connection setup or any of the three contract calls raises, and the three
decoded values on success. -/
theorem get_contract_values_sentinel :
    get_contract_values none = (none, none, none) ∧
      (∀ role prime, get_contract_values (some ⟨none, role, prime⟩) = (none, none, none)) ∧
      (∀ root prime, get_contract_values (some ⟨some root, none, prime⟩) = (none, none, none)) ∧
      (∀ root role, get_contract_values (some ⟨some root, some role, none⟩) = (none, none, none)) ∧
      (∀ root role prime,
        get_contract_values (some ⟨some root, some role, some prime⟩) =
          (some root, some role, some prime)) :=
  ⟨rfl, fun _ _ => rfl, fun _ _ => rfl, fun _ _ => rfl, fun _ _ _ => rfl⟩

/-- C9: when the bsc entry's address or abi is missing or empty,
`connect_with_middleware` raises `ValueError`; and it never returns a handle
whose address or abi is empty. -/
theorem connect_with_middleware_config_error (info : Option BscInfo) :
    (((info.getD ⟨none, none⟩).address.getD "" = "" ∨
        (info.getD ⟨none, none⟩).abi.getD "" = "") →
      connect_with_middleware true info =
        .error (.valueError "Could not find 'bsc' address or abi in contract_info.json")) ∧
      (∀ addr abi, connect_with_middleware true info = .ok (addr, abi) →
        addr ≠ "" ∧ abi ≠ "") := by
  constructor
  · intro h
    simp [connect_with_middleware, h]
  · intro addr abi hok
    by_cases h : (info.getD ⟨none, none⟩).address.getD "" = "" ∨
        (info.getD ⟨none, none⟩).abi.getD "" = ""
    · simp [connect_with_middleware, h] at hok
    · push_neg at h
      simp [connect_with_middleware, h.1, h.2] at hok
      exact ⟨hok.1 ▸ h.1, hok.2 ▸ h.2⟩

/-- Witness for C9: a configuration missing the bsc entry raises ValueError,
and a complete configuration returns a non-empty address and abi. -/
theorem connect_with_middleware_config_error_witness :
    ((none : Option BscInfo).getD ⟨none, none⟩).address.getD "" = "" ∧
      connect_with_middleware true none =
        .error (.valueError "Could not find 'bsc' address or abi in contract_info.json") ∧
      ("0xA" ≠ "" ∧ "[]" ≠ "") :=
  ⟨rfl, (connect_with_middleware_config_error none).1 (Or.inl rfl),
    (connect_with_middleware_config_error (some ⟨some "0xA", some "[]"⟩)).2 "0xA" "[]" rfl⟩

/-- C10: a transaction with an absent type (defaulting to 0), or any type
other than 2, is priced with the legacy formula `gasPrice - baseFeePerGas`;
the type-2 branch is taken only on an exact match with 2. -/
theorem non_type2_legacy_fee (base : Int) (tx : Tx) (h : tx.type.getD 0 ≠ 2) :
    priorityFee base tx = tx.gasPrice.getD 0 - base := by
  unfold priorityFee
  rw [if_neg h]

/-- Witness for C10 at a type-absent transaction carrying fee-market fields. -/
theorem non_type2_legacy_fee_witness :
    (Tx.mk none (some 90) (some 5) (some 120)).type.getD 0 ≠ 2 ∧
      priorityFee 100 (Tx.mk none (some 90) (some 5) (some 120)) =
        (Tx.mk none (some 90) (some 5) (some 120)).gasPrice.getD 0 - 100 :=
  ⟨by decide, non_type2_legacy_fee 100 (Tx.mk none (some 90) (some 5) (some 120)) (by decide)⟩

end ReadingTheChain
